import Mathlib

/-!
Shallow embedding of the llmchat streaming chat front-end (source: llmchat.py).

The embedding models, directly from the source:
  * the JSON values produced by the external JSON decoder, and the Python
    operations applied to them by the streaming loop (`in`, `[...]`, `.get`);
  * the per-frame streaming decoder of the chat-completion response body
    (lines 158-173 of the source), for both provider shapes;
  * the sliding-window rate limiter `check_rate_limit` (lines 78-85);
  * the persisted chat-history store `save_chat_history` / `load_chat_history`
    (lines 50-64), with the directory-of-files layer abstracted to a keyed
    store, as the spec scopes persistence mechanics to "store/retrieve by id";
  * the uploaded-file content extraction boundary (lines 66-76, 108-109);
  * the whole chat submit handler (lines 115-192), including its two
    exception handlers that pop the last session message.

The external JSON decoder (Python's json.loads) is kept as an explicit
function parameter `loads : String -> Option Json`: `none` models a raised
JSONDecodeError.  The network is modelled by an `ApiResult` environment value
saying how the request turned out; a `save_ok` flag models whether the final
file write raises.  Machine floats from time.time() are modelled as rationals.
-/

/-- JSON values as returned by the decoder.  Numbers are abstracted to `Int`;
none of the code under study inspects numeric payloads. -/
inductive Json where
  | null : Json
  | bool (b : Bool) : Json
  | num (n : Int) : Json
  | str (s : String) : Json
  | arr (elems : List Json) : Json
  | obj (fields : List (String × Json)) : Json

/-- Exceptions that the Python streaming loop can raise while decoding a
frame: a JSONDecodeError from json.loads, or TypeError / KeyError /
IndexError from the subscripting in lines 169-172.  All of them land in the
same generic `except Exception` handler, so only their existence matters. -/
inductive PyErr where
  | jsonError : PyErr
  | typeError : PyErr
  | keyError : PyErr
  | indexError : PyErr
deriving DecidableEq

/-- One chat message, a Python dict \x7b"role": ..., "content": ...\x7d. -/
structure Message where
  role : String
  content : String
deriving DecidableEq

/-- The record dumped per session file: \x7b"timestamp", "messages"\x7d
(lines 53-56).  The timestamp string is opaque to the code. -/
structure SavedChat where
  timestamp : String
  messages : List Message
deriving DecidableEq

/-- The chat_history directory: a keyed store of saved sessions.  A later
write for the same id shadows the earlier one, as a file overwrite does. -/
def ChatStore : Type := List (String × SavedChat)

instance : DecidableEq ChatStore := by
  unfold ChatStore
  infer_instance

/-- The mutable Streamlit session state used by the submit handler:
`st.session_state.messages`, `st.session_state.api_calls`,
`st.session_state.current_chat`, plus the persisted directory. -/
structure AppState where
  messages : List Message
  api_calls : List ℚ
  current_chat : String
  history_dir : ChatStore
deriving DecidableEq

/-- The provider selected in the sidebar.  The streaming loop branches on
`api_provider == "OpenRouter"` (line 162); every other provider (here
"DeepSeek Direct") takes the else branch. -/
inductive ApiProvider where
  | openRouter : ApiProvider
  | deepSeekDirect : ApiProvider
deriving DecidableEq

/-- How the chat-completion HTTP request turns out, as observed by the code:
the POST itself raises (connection reset, timeout), `raise_for_status` raises
an HTTPError carrying the non-2xx status, or a streamed body of line frames
arrives.  `save_ok` records whether the final `save_chat_history` file write
raises (an open/write on disk can fail; the generic handler catches it). -/
inductive ApiResult where
  | transportError : ApiResult
  | httpError (status : Nat) : ApiResult
  | stream (frames : List String) (save_ok : Bool) : ApiResult

/-- Observable outcome of one submit: which handler (if any) finished it. -/
inductive SubmitOutcome where
  | rateLimited : SubmitOutcome
  | missingKey : SubmitOutcome
  | success (assistant : String) : SubmitOutcome
  | apiError (status : Nat) : SubmitOutcome
  | genericError : SubmitOutcome
deriving DecidableEq

/-- Python str.strip() whitespace class (space, tab, newlines, vertical
tab, form feed). -/
def isPySpace (c : Char) : Bool :=
  c == ' ' || c == '\t' || c == '\n' || c == '\r' || c == '\x0b' || c == '\x0c'

/-- Python `s.strip()`: drop that whitespace from both ends. -/
def pyStrip (s : String) : String :=
  String.mk (((s.data.dropWhile isPySpace).reverse.dropWhile isPySpace).reverse)

/-- Python `s.lstrip(chars)`: drop leading characters drawn from the given
character set (NOT the literal string - `"data: "` strips the set
\x7b d, a, t, colon, space \x7d), exactly as line 167 uses it. -/
def pyLStripSet (s : String) (chars : String) : String :=
  String.mk (s.data.dropWhile (fun c => chars.data.contains c))

/-- Python `s.startswith(pre)`. -/
def strStartsWith (s pre : String) : Bool :=
  pre.data.isPrefixOf s.data

/-- Python `s[n:]`: drop the first n characters. -/
def strDrop (s : String) (n : Nat) : String :=
  String.mk (s.data.drop n)

/-- Python substring test `needle in hay` on character lists. -/
def hasSubstring : List Char → List Char → Bool
  | [], needle => needle.isEmpty
  | c :: t, needle => needle.isPrefixOf (c :: t) || hasSubstring t needle

/-- Python `==` between a string and an arbitrary JSON value (used by `in`
on a list): equal only when the value is that string. -/
def jsonIsStrEq (v : Json) (key : String) : Bool :=
  match v with
  | Json.str s => s == key
  | _ => false

/-- Python `key in value`: dict key membership, substring test on str,
element equality on list; TypeError on None/bool/number. -/
def pyContains (v : Json) (key : String) : Except PyErr Bool :=
  match v with
  | Json.obj fields => .ok (fields.any (fun kv => kv.1 == key))
  | Json.str s => .ok (hasSubstring s.data key.data)
  | Json.arr elems => .ok (elems.any (fun e => jsonIsStrEq e key))
  | _ => .error .typeError

/-- Python `value[key]` for a string key: dict lookup (KeyError when
absent), TypeError on anything that is not a dict. -/
def pyIndexStr (v : Json) (key : String) : Except PyErr Json :=
  match v with
  | Json.obj fields => match fields.lookup key with
    | some x => .ok x
    | none => .error .keyError
  | _ => .error .typeError

/-- Python `value[i]` for an integer index: list indexing (IndexError when
out of range), one-character string on str, TypeError otherwise. -/
def pyIndexNat (v : Json) (i : Nat) : Except PyErr Json :=
  match v with
  | Json.arr elems => match elems.get? i with
    | some x => .ok x
    | none => .error .indexError
  | Json.str s => match s.data.get? i with
    | some c => .ok (Json.str (String.mk [c]))
    | none => .error .indexError
  | _ => .error .typeError

/-- Python `value.get(key, default)`: total lookup on a dict, attribute
error (modelled as typeError) on anything else. -/
def pyDictGet (v : Json) (key : String) (dflt : Json) : Except PyErr Json :=
  match v with
  | Json.obj fields => match fields.lookup key with
    | some x => .ok x
    | none => .ok dflt
  | _ => .error .typeError

/-- Lines 169-172 applied to a parsed payload, without the accumulator:
`if "choices" in chunk_json:` then `chunk_json["choices"][0].get("delta",
\x7b\x7d)` and `if "content" in delta:` read `delta["content"]`.  Returns
`some text` when a delta text is present, `none` when the payload is
silently passed over, an error when any of the subscripts raises or the
content is not a string (so `+=` would raise). -/
def choiceContent (chunk_json : Json) : Except PyErr (Option String) :=
  match pyContains chunk_json "choices" with
  | .error e => .error e
  | .ok false => .ok none
  | .ok true =>
    match pyIndexStr chunk_json "choices" with
    | .error e => .error e
    | .ok choices =>
      match pyIndexNat choices 0 with
      | .error e => .error e
      | .ok choice0 =>
        match pyDictGet choice0 "delta" (Json.obj []) with
        | .error e => .error e
        | .ok delta =>
          match pyContains delta "content" with
          | .error e => .error e
          | .ok false => .ok none
          | .ok true =>
            match pyIndexStr delta "content" with
            | .error e => .error e
            | .ok (Json.str s) => .ok (some s)
            | .ok _ => .error .typeError

/-- Lines 169-173 with the accumulator: `full_response += delta["content"]`
when a delta text is present, unchanged otherwise. -/
def choiceAppend (chunk_json : Json) (full_response : String) : Except PyErr String :=
  match choiceContent chunk_json with
  | .error e => .error e
  | .ok none => .ok full_response
  | .ok (some s) => .ok (full_response ++ s)

/-- One iteration of the frame loop (lines 159-173).  The loop state is the
pair (chunk_json, full_response); chunk_json starts as the Python string ""
(line 158) and - crucially - is only reassigned for OpenRouter frames that
carry the "data: " marker, yet is processed for every non-empty frame. -/
def streamStep (api_provider : ApiProvider) (loads : String → Option Json)
    (st : Json × String) (chunk : String) : Except PyErr (Json × String) :=
  if chunk = "" then .ok st
  else
    match api_provider with
    | .openRouter =>
      let chunk_str := pyStrip chunk
      if strStartsWith chunk_str "data: " then
        match loads (strDrop chunk_str 6) with
        | none => .error .jsonError
        | some chunk_json =>
          match choiceAppend chunk_json st.2 with
          | .error e => .error e
          | .ok full_response => .ok (chunk_json, full_response)
      else
        match choiceAppend st.1 st.2 with
        | .error e => .error e
        | .ok full_response => .ok (st.1, full_response)
    | .deepSeekDirect =>
      match loads (pyLStripSet chunk "data: ") with
      | none => .error .jsonError
      | some chunk_json =>
        match choiceAppend chunk_json st.2 with
        | .error e => .error e
        | .ok full_response => .ok (chunk_json, full_response)

/-- The frame loop folded over the response body's frames. -/
def runStreamAux (api_provider : ApiProvider) (loads : String → Option Json) :
    Json × String → List String → Except PyErr (Json × String)
  | st, [] => .ok st
  | st, chunk :: rest =>
    match streamStep api_provider loads st chunk with
    | .error e => .error e
    | .ok st' => runStreamAux api_provider loads st' rest

/-- The full streaming phase: fold the loop from its initial state
(chunk_json = "", full_response = "") and return the accumulated text. -/
def runStream (api_provider : ApiProvider) (loads : String → Option Json)
    (frames : List String) : Except PyErr String :=
  match runStreamAux api_provider loads (Json.str "", "") frames with
  | .error e => .error e
  | .ok st => .ok st.2

/-- check_rate_limit (lines 78-85): prune the window to timestamps strictly
newer than now - 60, reject when 10 or more remain, otherwise append the
current time and accept.  The returned pair is (accepted, new window). -/
def check_rate_limit (now : ℚ) (api_calls : List ℚ) : Bool × List ℚ :=
  let api_calls := api_calls.filter (fun t => now - 60 < t)
  if 10 ≤ api_calls.length then
    (false, api_calls)
  else
    (true, api_calls ++ [now])

/-- A whole sequence of admit() calls: fold check_rate_limit over the call
times, starting from a given window. -/
def runCalls : List ℚ → List ℚ → List ℚ
  | [], w => w
  | t :: ts, w => runCalls ts (check_rate_limit t w).2

/-- An uploaded artifact as seen by read_uploaded_file (lines 66-76): a
plain-text file carrying its decoded text, a docx carrying its paragraphs,
or an unsupported type. -/
inductive UploadedFile where
  | txt (content : String) : UploadedFile
  | docx (paragraphs : List String) : UploadedFile
  | other : UploadedFile

/-- read_uploaded_file: decoded text for text/plain, newline-joined
paragraphs for docx, empty string for anything else (and on extraction
errors, which the function catches itself). -/
def read_uploaded_file : UploadedFile → String
  | .txt content => content
  | .docx paragraphs => String.intercalate "\n" paragraphs
  | .other => ""

/-- Line 109: file_content is the extraction result when a file is
attached, else the empty string. -/
def file_content_of (uploaded_file : Option UploadedFile) : String :=
  match uploaded_file with
  | some f => read_uploaded_file f
  | none => ""

/-- Line 123: full_prompt = f"\x7bfile_content\x7d\n\x7bprompt\x7d" if
file_content else prompt.  The branch tests the string's truthiness
(non-emptiness), not whether a file was attached. -/
def full_prompt_of (file_content : String) (prompt : String) : String :=
  if file_content = "" then prompt else file_content ++ "\n" ++ prompt

/-- save_chat_history (lines 50-56): write the record
\x7btimestamp, messages\x7d under the current chat id; a rewrite of the
same id shadows the previous file contents. -/
def save_chat_history (store : ChatStore) (current_chat : String) (timestamp : String)
    (messages : List Message) : ChatStore :=
  (current_chat, ⟨timestamp, messages⟩) :: store

/-- load_chat_history (lines 58-64) read back for one id: the most recently
written record for that session file, if any. -/
def load_chat_history (store : ChatStore) (id : String) : Option SavedChat :=
  store.lookup id

/-- Appending a message and persisting the session (the pattern of lines
176-177: session_state.messages.append then save_chat_history). -/
def append_message (st : AppState) (m : Message) (timestamp : String) : AppState :=
  let st := { st with messages := st.messages ++ [m] }
  { st with history_dir := save_chat_history st.history_dir st.current_chat timestamp st.messages }

/-- The rollback performed by both exception handlers (lines 189 and 192):
st.session_state.messages.pop() - unconditionally remove the most recently
appended message.  It takes no message argument and performs no check. -/
def messages_pop (messages : List Message) : List Message :=
  messages.dropLast

/-- The submit handler (lines 115-192), from the chat_input event to one of
its exits.  Inputs beyond the typed prompt: the provider selection, the JSON
decoder, the API key and file content from the page, the current time, the
timestamp string save_chat_history would write, and the environment's
`ApiResult` describing how the network call behaves. -/
def submit (api_provider : ApiProvider) (loads : String → Option Json)
    (api_key : String) (file_content : String) (prompt : String)
    (now : ℚ) (timestamp : String) (api : ApiResult) (st : AppState) :
    SubmitOutcome × AppState :=
  match check_rate_limit now st.api_calls with
  | (false, api_calls) => (.rateLimited, { st with api_calls := api_calls })
  | (true, api_calls) =>
    let st := { st with api_calls := api_calls }
    if api_key = "" then
      (.missingKey, st)
    else
      let full_prompt := full_prompt_of file_content prompt
      let st := { st with messages := st.messages ++ [Message.mk "user" full_prompt] }
      match api with
      | .transportError =>
        (.genericError, { st with messages := messages_pop st.messages })
      | .httpError status =>
        (.apiError status, { st with messages := messages_pop st.messages })
      | .stream frames save_ok =>
        match runStream api_provider loads frames with
        | .error _ =>
          (.genericError, { st with messages := messages_pop st.messages })
        | .ok full_response =>
          let st := { st with messages := st.messages ++ [Message.mk "assistant" full_response] }
          if save_ok then
            (.success full_response,
              { st with history_dir :=
                  save_chat_history st.history_dir st.current_chat timestamp st.messages })
          else
            (.genericError, { st with messages := messages_pop st.messages })

/-- The delta one frame contributes when the stream is well-formed:
`some ""` for an empty frame or a payload without a delta text, `some d`
for a freshly parsed payload carrying delta text d, and `none` when the
frame would either raise (parse failure, malformed payload) or - for the
SSE provider - fail to carry the "data: " marker and hence re-process the
stale payload. -/
def payloadDelta (chunk_json : Json) : Option String :=
  match choiceContent chunk_json with
  | .error _ => none
  | .ok none => some ""
  | .ok (some s) => some s

/-- Per-frame delta for a given provider shape (see payloadDelta). -/
def frameDelta (api_provider : ApiProvider) (loads : String → Option Json)
    (chunk : String) : Option String :=
  if chunk = "" then some ""
  else
    match api_provider with
    | .openRouter =>
      if strStartsWith (pyStrip chunk) "data: " then
        match loads (strDrop (pyStrip chunk) 6) with
        | none => none
        | some chunk_json => payloadDelta chunk_json
      else none
    | .deepSeekDirect =>
      match loads (pyLStripSet chunk "data: ") with
      | none => none
      | some chunk_json => payloadDelta chunk_json

/-- All per-frame deltas of a stream, defined when every frame is
well-formed in the sense of frameDelta. -/
def framesDeltas (api_provider : ApiProvider) (loads : String → Option Json) :
    List String → Option (List String)
  | [] => some []
  | chunk :: rest =>
    match frameDelta api_provider loads chunk, framesDeltas api_provider loads rest with
    | some d, some ds => some (d :: ds)
    | _, _ => none

/-- In-order concatenation of a list of text deltas. -/
def concatAll (ds : List String) : String :=
  ds.foldr (fun a b => a ++ b) ""

/-- A parsed streaming payload carrying the delta text "Hi":
\x7b"choices": [\x7b"delta": \x7b"content": "Hi"\x7d\x7d]\x7d. -/
def payloadHi : Json :=
  Json.obj [("choices", Json.arr [Json.obj [("delta", Json.obj [("content", Json.str "Hi")])]])]

/-- A parsed streaming payload carrying the delta text " there". -/
def payloadThere : Json :=
  Json.obj [("choices", Json.arr [Json.obj [("delta", Json.obj [("content", Json.str " there")])]])]

/-- The raw JSON text of payloadHi. -/
def jsonHi : String :=
  "\x7b\"choices\": [\x7b\"delta\": \x7b\"content\": \"Hi\"\x7d\x7d]\x7d"

/-- The raw JSON text of payloadThere. -/
def jsonThere : String :=
  "\x7b\"choices\": [\x7b\"delta\": \x7b\"content\": \" there\"\x7d\x7d]\x7d"

/-- A concrete JSON decoder covering the frames used in the examples; any
other input fails to decode, as json.loads would on non-JSON noise. -/
def loadsEx : String → Option Json := fun s =>
  if s = jsonHi then some payloadHi
  else if s = jsonThere then some payloadThere
  else none

/-- A decoder on which every input fails; used where no frame is decoded. -/
def loadsNone : String → Option Json := fun _ => none

/-- SSE frame carrying payloadHi. -/
def frameHi : String := "data: " ++ jsonHi

/-- SSE frame carrying payloadThere. -/
def frameThere : String := "data: " ++ jsonThere

/-- A fresh session state: empty log, empty rate window, empty store. -/
def st0 : AppState :=
  { messages := [], api_calls := [], current_chat := "chat-1", history_dir := [] }

/-- Ten admitted timestamps, all within the minute before time 600. -/
def calls10 : List ℚ := [560, 565, 570, 575, 580, 585, 590, 595, 596, 599]

/-- Nine admitted timestamps within the minute before time 600. -/
def calls9 : List ℚ := [560, 565, 570, 575, 580, 585, 590, 595, 596]

/-- st0 with the rate window already holding calls10. -/
def st10 : AppState := { st0 with api_calls := calls10 }

theorem strAppend_empty (s : String) : s ++ "" = s := by
  cases s with
  | mk data =>
    show String.mk (data ++ ("" : String).data) = String.mk data
    simp

theorem strEmpty_append (s : String) : "" ++ s = s := by
  cases s with
  | mk data =>
    show String.mk (("" : String).data ++ data) = String.mk data
    simp

theorem strAppend_assoc (a b c : String) : a ++ b ++ c = a ++ (b ++ c) := by
  cases a with
  | mk da =>
    cases b with
    | mk db =>
      cases c with
      | mk dc =>
        show String.mk (da ++ db ++ dc) = String.mk (da ++ (db ++ dc))
        simp

theorem choiceAppend_of_payloadDelta {j : Json} {d : String}
    (h : payloadDelta j = some d) (acc : String) :
    choiceAppend j acc = .ok (acc ++ d) := by
  unfold payloadDelta at h
  unfold choiceAppend
  rcases hc : choiceContent j with e | o
  · rw [hc] at h; exact absurd h (by simp)
  · rw [hc] at h
    cases o with
    | none =>
      simp at h
      subst h
      rw [strAppend_empty]
    | some s =>
      simp at h
      subst h
      rfl

theorem streamStep_of_frameDelta {p : ApiProvider} {loads : String → Option Json}
    {chunk : String} {d : String}
    (h : frameDelta p loads chunk = some d) (cj : Json) (acc : String) :
    ∃ cj', streamStep p loads (cj, acc) chunk = .ok (cj', acc ++ d) := by
  unfold frameDelta at h
  unfold streamStep
  by_cases he : chunk = ""
  · rw [if_pos he] at h ⊢
    simp only [Option.some.injEq] at h
    subst h
    exact ⟨cj, by rw [strAppend_empty]⟩
  · rw [if_neg he] at h ⊢
    cases p with
    | openRouter =>
      by_cases hs : strStartsWith (pyStrip chunk) "data: " = true
      · rw [if_pos hs] at h ⊢
        rcases hl : loads (strDrop (pyStrip chunk) 6) with _ | j
        · rw [hl] at h; exact absurd h (by simp)
        · rw [hl] at h
          dsimp only at h ⊢
          refine ⟨j, ?_⟩
          rw [choiceAppend_of_payloadDelta h acc]
      · rw [if_neg hs] at h
        exact absurd h (by simp)
    | deepSeekDirect =>
      rcases hl : loads (pyLStripSet chunk "data: ") with _ | j
      · rw [hl] at h; exact absurd h (by simp)
      · rw [hl] at h
        dsimp only at h ⊢
        refine ⟨j, ?_⟩
        rw [choiceAppend_of_payloadDelta h acc]

theorem runStreamAux_deltas {p : ApiProvider} {loads : String → Option Json} :
    ∀ {frames : List String} {ds : List String} (cj : Json) (acc : String),
      framesDeltas p loads frames = some ds →
      ∃ cj', runStreamAux p loads (cj, acc) frames = .ok (cj', acc ++ concatAll ds) := by
  intro frames
  induction frames with
  | nil =>
    intro ds cj acc h
    simp only [framesDeltas, Option.some.injEq] at h
    subst h
    exact ⟨cj, by simp only [runStreamAux]; rw [show concatAll [] = "" from rfl, strAppend_empty]⟩
  | cons chunk rest ih =>
    intro ds cj acc h
    unfold framesDeltas at h
    rcases hf : frameDelta p loads chunk with _ | d <;> rw [hf] at h
    · exact absurd h (by simp)
    · rcases hr : framesDeltas p loads rest with _ | ds' <;> rw [hr] at h
      · exact absurd h (by simp)
      · simp only [Option.some.injEq] at h
        subst h
        obtain ⟨cj1, hstep⟩ := streamStep_of_frameDelta hf cj acc
        obtain ⟨cj', hrest⟩ := ih cj1 (acc ++ d) hr
        refine ⟨cj', ?_⟩
        simp only [runStreamAux, hstep, hrest]
        rw [show concatAll (d :: ds') = d ++ concatAll ds' from rfl, strAppend_assoc]

theorem runStream_deltas {p : ApiProvider} {loads : String → Option Json}
    {frames : List String} {ds : List String}
    (h : framesDeltas p loads frames = some ds) :
    runStream p loads frames = .ok (concatAll ds) := by
  obtain ⟨cj', hrun⟩ := runStreamAux_deltas (Json.str "") "" h
  unfold runStream
  rw [hrun]
  show Except.ok ("" ++ concatAll ds) = Except.ok (concatAll ds)
  rw [strEmpty_append]

theorem runStreamAux_openRouter_parse_failure {loads : String → Option Json}
    {chunk : String} (st : Json × String) (rest : List String)
    (hne : chunk ≠ "")
    (hdata : strStartsWith (pyStrip chunk) "data: " = true)
    (hfail : loads (strDrop (pyStrip chunk) 6) = none) :
    runStreamAux .openRouter loads st (chunk :: rest) = .error .jsonError := by
  simp only [runStreamAux, streamStep, if_neg hne]
  rw [if_pos hdata, hfail]

theorem runStreamAux_deepSeek_parse_failure {loads : String → Option Json}
    {chunk : String} (st : Json × String) (rest : List String)
    (hne : chunk ≠ "")
    (hfail : loads (pyLStripSet chunk "data: ") = none) :
    runStreamAux .deepSeekDirect loads st (chunk :: rest) = .error .jsonError := by
  simp only [runStreamAux, streamStep, if_neg hne]
  rw [hfail]

theorem runStreamAux_openRouter_stale_reprocess {loads : String → Option Json}
    {chunk full : String} (st : Json × String) (rest : List String)
    (hne : chunk ≠ "")
    (hnodata : strStartsWith (pyStrip chunk) "data: " = false)
    (hstale : choiceAppend st.1 st.2 = .ok full) :
    runStreamAux .openRouter loads st (chunk :: rest) =
      runStreamAux .openRouter loads (st.1, full) rest := by
  simp only [runStreamAux, streamStep, if_neg hne]
  rw [if_neg (by rw [hnodata]; exact Bool.false_ne_true), hstale]

theorem check_rate_limit_reject {now : ℚ} {calls : List ℚ}
    (h : 10 ≤ (calls.filter (fun t => now - 60 < t)).length) :
    check_rate_limit now calls = (false, calls.filter (fun t => now - 60 < t)) := by
  simp only [check_rate_limit]
  rw [if_pos h]

theorem check_rate_limit_accept {now : ℚ} {calls : List ℚ}
    (h : (calls.filter (fun t => now - 60 < t)).length < 10) :
    check_rate_limit now calls = (true, calls.filter (fun t => now - 60 < t) ++ [now]) := by
  simp only [check_rate_limit]
  rw [if_neg (by omega)]

theorem check_rate_limit_fst_true {now : ℚ} {calls : List ℚ}
    (h : (check_rate_limit now calls).1 = true) :
    (check_rate_limit now calls).2 = calls.filter (fun t => now - 60 < t) ++ [now] := by
  by_cases hc : 10 ≤ (calls.filter (fun t => now - 60 < t)).length
  · rw [check_rate_limit_reject hc] at h
    exact absurd h (by simp)
  · rw [check_rate_limit_accept (by omega)]

theorem check_rate_limit_window (now : ℚ) (w : List ℚ) (hlen : w.length ≤ 10)
    (hub : ∀ x ∈ w, x ≤ now) :
    ((check_rate_limit now w).2).length ≤ 10 ∧
      ∀ x ∈ (check_rate_limit now w).2, now - 60 ≤ x ∧ x ≤ now := by
  have hfilter_len : (w.filter (fun t => now - 60 < t)).length ≤ 10 :=
    le_trans (w.length_filter_le _) hlen
  have hfilter_mem : ∀ x ∈ w.filter (fun t => now - 60 < t), now - 60 ≤ x ∧ x ≤ now := by
    intro x hx
    rw [List.mem_filter] at hx
    exact ⟨le_of_lt (by simpa using hx.2), hub x hx.1⟩
  by_cases hc : 10 ≤ (w.filter (fun t => now - 60 < t)).length
  · rw [check_rate_limit_reject hc]
    exact ⟨hfilter_len, hfilter_mem⟩
  · rw [check_rate_limit_accept (by omega)]
    constructor
    · simp only [List.length_append, List.length_cons, List.length_nil]
      omega
    · intro x hx
      rw [List.mem_append] at hx
      rcases hx with hx | hx
      · exact hfilter_mem x hx
      · simp only [List.mem_singleton] at hx
        subst hx
        constructor
        · linarith
        · exact le_refl x

theorem runCalls_take_inv :
    ∀ (times : List ℚ) (w : List ℚ), times.Sorted (· ≤ ·) → w.length ≤ 10 →
      (∀ x ∈ w, ∀ t ∈ times, x ≤ t) →
      ∀ (n : Nat) (h : n < times.length),
        (runCalls (times.take (n + 1)) w).length ≤ 10 ∧
          ∀ x ∈ runCalls (times.take (n + 1)) w,
            times.get ⟨n, h⟩ - 60 ≤ x ∧ x ≤ times.get ⟨n, h⟩ := by
  intro times
  induction times with
  | nil =>
    intro w _ _ _ n h
    exact absurd h (by simp)
  | cons t ts ih =>
    intro w hsort hlen hub n h
    have hsort' := List.sorted_cons.mp hsort
    have hstep := check_rate_limit_window t w hlen
      (fun x hx => hub x hx t (List.mem_cons_self t ts))
    cases n with
    | zero =>
      simpa [runCalls] using hstep
    | succ m =>
      have h' : m < ts.length := by simpa using h
      have hnext := ih ((check_rate_limit t w).2) hsort'.2 hstep.1
        (fun x hx s hs => le_trans ((hstep.2 x hx).2) (hsort'.1 s hs)) m h'
      simpa [runCalls] using hnext

theorem dropLast_append_singleton {α : Type} (l : List α) (a : α) :
    (l ++ [a]).dropLast = l := by
  simp

theorem submit_rejected (p : ApiProvider) (loads : String → Option Json)
    (api_key file_content prompt : String) (now : ℚ) (ts : String)
    (api : ApiResult) (st : AppState)
    (h : (check_rate_limit now st.api_calls).1 = false) :
    submit p loads api_key file_content prompt now ts api st
      = (.rateLimited, { st with api_calls := (check_rate_limit now st.api_calls).2 }) := by
  unfold submit
  rcases hq : check_rate_limit now st.api_calls with ⟨b, w⟩
  rw [hq] at h
  simp only at h
  subst h
  rfl

theorem submit_missingKey (p : ApiProvider) (loads : String → Option Json)
    (file_content prompt : String) (now : ℚ) (ts : String)
    (api : ApiResult) (st : AppState)
    (h1 : (check_rate_limit now st.api_calls).1 = true) :
    submit p loads "" file_content prompt now ts api st
      = (.missingKey, { st with api_calls := (check_rate_limit now st.api_calls).2 }) := by
  unfold submit
  rcases hq : check_rate_limit now st.api_calls with ⟨b, w⟩
  rw [hq] at h1
  simp only at h1
  subst h1
  rfl

theorem submit_httpError (p : ApiProvider) (loads : String → Option Json)
    (api_key file_content prompt : String) (now : ℚ) (ts : String)
    (status : Nat) (st : AppState)
    (h1 : (check_rate_limit now st.api_calls).1 = true)
    (h2 : api_key ≠ "") :
    submit p loads api_key file_content prompt now ts (.httpError status) st
      = (.apiError status, { st with api_calls := (check_rate_limit now st.api_calls).2 }) := by
  unfold submit
  rcases hq : check_rate_limit now st.api_calls with ⟨b, w⟩
  rw [hq] at h1
  simp only at h1
  subst h1
  simp only [if_neg h2, messages_pop, dropLast_append_singleton]

theorem submit_transportError (p : ApiProvider) (loads : String → Option Json)
    (api_key file_content prompt : String) (now : ℚ) (ts : String)
    (st : AppState)
    (h1 : (check_rate_limit now st.api_calls).1 = true)
    (h2 : api_key ≠ "") :
    submit p loads api_key file_content prompt now ts .transportError st
      = (.genericError, { st with api_calls := (check_rate_limit now st.api_calls).2 }) := by
  unfold submit
  rcases hq : check_rate_limit now st.api_calls with ⟨b, w⟩
  rw [hq] at h1
  simp only at h1
  subst h1
  simp only [if_neg h2, messages_pop, dropLast_append_singleton]

theorem submit_streamError (p : ApiProvider) (loads : String → Option Json)
    (api_key file_content prompt : String) (now : ℚ) (ts : String)
    (frames : List String) (save_ok : Bool) (e : PyErr) (st : AppState)
    (h1 : (check_rate_limit now st.api_calls).1 = true)
    (h2 : api_key ≠ "")
    (hrun : runStream p loads frames = .error e) :
    submit p loads api_key file_content prompt now ts (.stream frames save_ok) st
      = (.genericError, { st with api_calls := (check_rate_limit now st.api_calls).2 }) := by
  unfold submit
  rcases hq : check_rate_limit now st.api_calls with ⟨b, w⟩
  rw [hq] at h1
  simp only at h1
  subst h1
  simp only [if_neg h2, hrun, messages_pop, dropLast_append_singleton]

theorem submit_streamOk_saved (p : ApiProvider) (loads : String → Option Json)
    (api_key file_content prompt : String) (now : ℚ) (ts : String)
    (frames : List String) (resp : String) (st : AppState)
    (h1 : (check_rate_limit now st.api_calls).1 = true)
    (h2 : api_key ≠ "")
    (hrun : runStream p loads frames = .ok resp) :
    submit p loads api_key file_content prompt now ts (.stream frames true) st
      = (.success resp,
          { st with
              api_calls := (check_rate_limit now st.api_calls).2,
              messages := st.messages ++
                [Message.mk "user" (full_prompt_of file_content prompt),
                 Message.mk "assistant" resp],
              history_dir := save_chat_history st.history_dir st.current_chat ts
                (st.messages ++
                  [Message.mk "user" (full_prompt_of file_content prompt),
                   Message.mk "assistant" resp]) }) := by
  unfold submit
  rcases hq : check_rate_limit now st.api_calls with ⟨b, w⟩
  rw [hq] at h1
  simp only at h1
  subst h1
  simp only [if_neg h2, hrun, List.append_assoc, List.singleton_append]
  rfl

theorem submit_streamOk_saveFail (p : ApiProvider) (loads : String → Option Json)
    (api_key file_content prompt : String) (now : ℚ) (ts : String)
    (frames : List String) (resp : String) (st : AppState)
    (h1 : (check_rate_limit now st.api_calls).1 = true)
    (h2 : api_key ≠ "")
    (hrun : runStream p loads frames = .ok resp) :
    submit p loads api_key file_content prompt now ts (.stream frames false) st
      = (.genericError,
          { st with
              api_calls := (check_rate_limit now st.api_calls).2,
              messages := st.messages ++
                [Message.mk "user" (full_prompt_of file_content prompt)] }) := by
  unfold submit
  rcases hq : check_rate_limit now st.api_calls with ⟨b, w⟩
  rw [hq] at h1
  simp only at h1
  subst h1
  simp only [if_neg h2, hrun, messages_pop, dropLast_append_singleton]
  rw [if_neg Bool.false_ne_true]

/-- C2: for every nondecreasing sequence of admit() call times, after every
call the rate window holds at most 10 admitted timestamps and every retained
timestamp lies within [now - 60, now] for that call's time `now`. -/
theorem rate_window_invariant (times : List ℚ) (hmono : times.Sorted (· ≤ ·))
    (n : Nat) (h : n < times.length) :
    (runCalls (times.take (n + 1)) []).length ≤ 10 ∧
      ∀ x ∈ runCalls (times.take (n + 1)) [],
        times.get ⟨n, h⟩ - 60 ≤ x ∧ x ≤ times.get ⟨n, h⟩ :=
  runCalls_take_inv times [] hmono (by simp) (by simp) n h

/-- Witness for C2 at the concrete call times 0, 30, 70. -/
theorem rate_window_invariant_witness :
    (runCalls (List.take (2 + 1) [(0 : ℚ), 30, 70]) []).length ≤ 10 ∧
      ((70 : ℚ) - 60 ≤ 30 ∧ (30 : ℚ) ≤ 70) := by
  have h := rate_window_invariant [(0 : ℚ), 30, 70]
    (by norm_num [List.sorted_cons]) 2 (by norm_num)
  have hrc : runCalls (List.take (2 + 1) [(0 : ℚ), 30, 70]) [] = [30, 70] := by
    norm_num [runCalls, check_rate_limit, List.filter]
  refine ⟨h.1, ?_⟩
  have h30 := h.2 30 (by rw [hrc]; simp)
  simpa using h30

/-- C3: each admit() call first prunes entries older than 60 seconds; with
10 or more remaining it returns false and the window is only pruned, else it
records the call time and returns true; and a submit rejected this way ends
rateLimited with the session log and the persisted store untouched. -/
theorem admission_control (now : ℚ) (calls : List ℚ) :
    (10 ≤ (calls.filter (fun t => now - 60 < t)).length →
      check_rate_limit now calls = (false, calls.filter (fun t => now - 60 < t))) ∧
    ((calls.filter (fun t => now - 60 < t)).length < 10 →
      check_rate_limit now calls
        = (true, calls.filter (fun t => now - 60 < t) ++ [now])) ∧
    (∀ (p : ApiProvider) (loads : String → Option Json)
        (api_key file_content prompt ts : String) (api : ApiResult) (st : AppState),
      st.api_calls = calls →
      10 ≤ (calls.filter (fun t => now - 60 < t)).length →
      submit p loads api_key file_content prompt now ts api st
        = (.rateLimited, { st with api_calls := calls.filter (fun t => now - 60 < t) })) := by
  refine ⟨fun h => check_rate_limit_reject h, fun h => check_rate_limit_accept h, ?_⟩
  intro p loads api_key file_content prompt ts api st hst h
  subst hst
  have hr := check_rate_limit_reject h
  rw [submit_rejected p loads api_key file_content prompt now ts api st (by rw [hr]), hr]

/-- Witness for C3: ten in-window timestamps reject the 11th call at time
600 and leave the submit without any log mutation; nine accept. -/
theorem admission_control_witness :
    check_rate_limit 600 calls10 = (false, calls10) ∧
    check_rate_limit 600 calls9 = (true, calls9 ++ [600]) ∧
    (submit .openRouter loadsNone "k" "" "hello" 600 "t" (.stream [] true) st10).1
        = .rateLimited ∧
    (submit .openRouter loadsNone "k" "" "hello" 600 "t" (.stream [] true) st10).2.messages
        = st10.messages ∧
    (submit .openRouter loadsNone "k" "" "hello" 600 "t" (.stream [] true) st10).2.history_dir
        = st10.history_dir := by
  have hfilter10 : calls10.filter (fun t => (600 : ℚ) - 60 < t) = calls10 := by
    norm_num [calls10, List.filter]
  have hfilter9 : calls9.filter (fun t => (600 : ℚ) - 60 < t) = calls9 := by
    norm_num [calls9, List.filter]
  have hlen10 : 10 ≤ (calls10.filter (fun t => (600 : ℚ) - 60 < t)).length := by
    rw [hfilter10]; norm_num [calls10]
  have h10 := admission_control 600 calls10
  have h9 := admission_control 600 calls9
  have hsub := (admission_control 600 calls10).2.2 .openRouter loadsNone "k" "" "hello" "t"
    (.stream [] true) st10 rfl hlen10
  refine ⟨?_, ?_, ?_, ?_, ?_⟩
  · rw [h10.1 hlen10, hfilter10]
  · rw [h9.2.1 (by rw [hfilter9]; norm_num [calls9]), hfilter9]
  · rw [hsub]
  · rw [hsub]
  · rw [hsub]

/-- C10: whenever admission succeeds, the call time is recorded in the rate
window before credential validation and before the network request, and it
stays recorded no matter how the submit then fails; in particular a missing
API key aborts the submit but still consumes the slot. -/
theorem rate_slot_consumed (p : ApiProvider) (loads : String → Option Json)
    (api_key file_content prompt : String) (now : ℚ) (ts : String)
    (api : ApiResult) (st : AppState)
    (h : (check_rate_limit now st.api_calls).1 = true) :
    (submit p loads api_key file_content prompt now ts api st).2.api_calls
        = st.api_calls.filter (fun t => now - 60 < t) ++ [now] ∧
    (api_key = "" →
      (submit p loads api_key file_content prompt now ts api st).1 = .missingKey) := by
  have hw := check_rate_limit_fst_true h
  by_cases hk : api_key = ""
  · subst hk
    rw [submit_missingKey p loads file_content prompt now ts api st h]
    exact ⟨hw, fun _ => rfl⟩
  · refine ⟨?_, fun hcontra => absurd hcontra hk⟩
    cases api with
    | transportError =>
      rw [submit_transportError p loads api_key file_content prompt now ts st h hk]
      exact hw
    | httpError status =>
      rw [submit_httpError p loads api_key file_content prompt now ts status st h hk]
      exact hw
    | stream frames save_ok =>
      rcases hrun : runStream p loads frames with e | resp
      · rw [submit_streamError p loads api_key file_content prompt now ts frames save_ok e st h hk hrun]
        exact hw
      · cases save_ok with
        | true =>
          rw [submit_streamOk_saved p loads api_key file_content prompt now ts frames resp st h hk hrun]
          exact hw
        | false =>
          rw [submit_streamOk_saveFail p loads api_key file_content prompt now ts frames resp st h hk hrun]
          exact hw

/-- Witness for C10: a submit with no API key, and one failing with HTTP
500, both leave the call time 0 recorded in the window. -/
theorem rate_slot_consumed_witness :
    (submit .openRouter loadsNone "" "" "Hello" 0 "t" .transportError st0).2.api_calls
        = [(0 : ℚ)] ∧
    (submit .openRouter loadsNone "" "" "Hello" 0 "t" .transportError st0).1
        = .missingKey ∧
    (submit .openRouter loadsNone "k" "" "Hello" 0 "t" (.httpError 500) st0).2.api_calls
        = [(0 : ℚ)] := by
  have h1 := rate_slot_consumed .openRouter loadsNone "" "" "Hello" 0 "t" .transportError st0
    (by decide)
  have h2 := rate_slot_consumed .openRouter loadsNone "k" "" "Hello" 0 "t" (.httpError 500) st0
    (by decide)
  refine ⟨?_, h1.2 rfl, ?_⟩
  · rw [h1.1]; decide
  · rw [h2.1]; decide

/-- C8: appending a message and persisting the session, then loading that
session id back, returns exactly the prior message sequence plus the
appended message together with the written timestamp; other session ids are
unaffected. -/
theorem append_load_roundtrip (st : AppState) (m : Message) (ts : String) :
    load_chat_history (append_message st m ts).history_dir st.current_chat
        = some ⟨ts, st.messages ++ [m]⟩ ∧
    ∀ other, other ≠ st.current_chat →
      load_chat_history (append_message st m ts).history_dir other
        = load_chat_history st.history_dir other := by
  constructor
  · simp [append_message, save_chat_history, load_chat_history, List.lookup]
  · intro other hne
    have hbeq : (other == st.current_chat) = false := beq_eq_false_iff_ne.mpr hne
    simp [append_message, save_chat_history, load_chat_history, List.lookup, hbeq]

/-- Witness for C8 at a fresh session and at a store holding another id. -/
theorem append_load_roundtrip_witness :
    load_chat_history (append_message st0 (Message.mk "user" "x") "t0").history_dir "chat-1"
        = some ⟨"t0", [Message.mk "user" "x"]⟩ ∧
    load_chat_history
        (append_message { st0 with history_dir := [("old", SavedChat.mk "s" [])] }
          (Message.mk "user" "x") "t0").history_dir "old"
        = some (SavedChat.mk "s" []) := by
  have h1 := append_load_roundtrip st0 (Message.mk "user" "x") "t0"
  have h2 := append_load_roundtrip { st0 with history_dir := [("old", SavedChat.mk "s" [])] }
    (Message.mk "user" "x") "t0"
  constructor
  · simpa using h1.1
  · have hother := h2.2 "old" (by decide)
    rw [hother]
    decide

/-- C6 (amended): the persisted user message content is the extracted file
content, a newline, then the typed text whenever the extracted content is
non-empty; when no file is attached - or the extraction yields the empty
string - it is just the typed text, because line 123 branches on the
truthiness of file_content, not on the presence of an attachment. -/
theorem prompt_composition (u : Option UploadedFile) (prompt : String) :
    (∀ f, u = some f → read_uploaded_file f ≠ "" →
      full_prompt_of (file_content_of u) prompt
        = read_uploaded_file f ++ "\n" ++ prompt) ∧
    (file_content_of u = "" → full_prompt_of (file_content_of u) prompt = prompt) ∧
    (∀ (p : ApiProvider) (loads : String → Option Json) (api_key : String)
        (now : ℚ) (ts : String) (frames : List String) (resp : String) (st : AppState),
      (check_rate_limit now st.api_calls).1 = true → api_key ≠ "" →
      runStream p loads frames = .ok resp →
      (submit p loads api_key (file_content_of u) prompt now ts
          (.stream frames true) st).2.messages
        = st.messages ++ [Message.mk "user" (full_prompt_of (file_content_of u) prompt),
            Message.mk "assistant" resp]) := by
  refine ⟨?_, ?_, ?_⟩
  · intro f hu hne
    subst hu
    show full_prompt_of (read_uploaded_file f) prompt = read_uploaded_file f ++ "\n" ++ prompt
    unfold full_prompt_of
    rw [if_neg hne]
  · intro h
    unfold full_prompt_of
    rw [if_pos h]
  · intro p loads api_key now ts frames resp st h1 h2 hrun
    rw [submit_streamOk_saved p loads api_key (file_content_of u) prompt now ts frames resp st
      h1 h2 hrun]

/-- Counterexample for C6: an attached plain-text file whose extracted
content is empty.  A file is attached, yet the persisted user content is
just the typed text, not extracted content + newline + text. -/
theorem prompt_composition_counterexample :
    read_uploaded_file (UploadedFile.txt "") = "" ∧
    full_prompt_of (file_content_of (some (UploadedFile.txt ""))) "Summarize."
        = "Summarize." ∧
    "Summarize." ≠ "" ++ "\n" ++ "Summarize." ∧
    (submit .openRouter loadsNone "k" (file_content_of (some (UploadedFile.txt "")))
        "Summarize." 0 "t" (.stream [] true) st0).2.messages
      = [Message.mk "user" "Summarize.", Message.mk "assistant" ""] := by
  refine ⟨rfl, rfl, by decide, rfl⟩

/-- Witness for C6 at the spec's scenario and at a plain submit. -/
theorem prompt_composition_witness :
    full_prompt_of (file_content_of (some (UploadedFile.txt "Context."))) "Summarize."
        = "Context." ++ "\n" ++ "Summarize." ∧
    full_prompt_of (file_content_of none) "Summarize." = "Summarize." ∧
    (submit .openRouter loadsNone "k" (file_content_of (some (UploadedFile.txt "Context.")))
        "Summarize." 0 "t" (.stream [] true) st0).2.messages
      = [Message.mk "user" ("Context." ++ "\n" ++ "Summarize."),
         Message.mk "assistant" ""] := by
  have h := prompt_composition (some (UploadedFile.txt "Context.")) "Summarize."
  have hn := prompt_composition none "Summarize."
  have hc := h.1 (UploadedFile.txt "Context.") rfl (by decide)
  refine ⟨hc, hn.2.1 rfl, ?_⟩
  have hs := h.2.2 .openRouter loadsNone "k" 0 "t" [] "" st0 (by decide) (by decide) rfl
  rw [hs, hc]
  rfl

/-- C7 (amended): the rollback performed by the error handlers is an
unconditional pop: it always removes exactly the most recently appended
message, takes no message argument, performs no identity check, and cannot
fail with a RollbackMismatch. -/
theorem rollback_pop_removes_last (l : List Message) (m : Message) :
    messages_pop (l ++ [m]) = l :=
  dropLast_append_singleton l m

/-- Counterexample for C7: asking to roll back a message that is not the
last one neither fails nor leaves the log unchanged - the pop ignores the
intended message and removes the last one. -/
theorem rollback_pop_counterexample :
    messages_pop [Message.mk "user" "A", Message.mk "assistant" "B"]
        = [Message.mk "user" "A"] ∧
    messages_pop [Message.mk "user" "A", Message.mk "assistant" "B"]
        ≠ [Message.mk "user" "A", Message.mk "assistant" "B"] := by
  refine ⟨rfl, by decide⟩

/-- C4 (amended): a non-empty frame whose JSON payload fails to parse makes
the streaming loop raise, aborting the whole stream with a jsonError - for
both provider frame shapes - rather than being skipped; only an SSE frame
lacking the "data: " marker is passed over without a parse attempt, and it
re-processes the previously parsed payload. -/
theorem malformed_frame_aborts :
    (∀ (loads : String → Option Json) (st : Json × String) (chunk : String)
        (rest : List String),
      chunk ≠ "" → strStartsWith (pyStrip chunk) "data: " = true →
      loads (strDrop (pyStrip chunk) 6) = none →
      runStreamAux .openRouter loads st (chunk :: rest) = .error .jsonError) ∧
    (∀ (loads : String → Option Json) (st : Json × String) (chunk : String)
        (rest : List String),
      chunk ≠ "" → loads (pyLStripSet chunk "data: ") = none →
      runStreamAux .deepSeekDirect loads st (chunk :: rest) = .error .jsonError) ∧
    (∀ (loads : String → Option Json) (st : Json × String) (chunk full : String)
        (rest : List String),
      chunk ≠ "" → strStartsWith (pyStrip chunk) "data: " = false →
      choiceAppend st.1 st.2 = .ok full →
      runStreamAux .openRouter loads st (chunk :: rest)
        = runStreamAux .openRouter loads (st.1, full) rest) :=
  ⟨fun _ st _ rest h1 h2 h3 => runStreamAux_openRouter_parse_failure st rest h1 h2 h3,
   fun _ st _ rest h1 h2 => runStreamAux_deepSeek_parse_failure st rest h1 h2,
   fun _ st _ _ rest h1 h2 h3 => runStreamAux_openRouter_stale_reprocess st rest h1 h2 h3⟩

/-- Counterexample for C4: an unparsable frame followed by a valid frame
aborts the stream with an error in both provider shapes, instead of being
skipped and letting the later delta accumulate to "Hi". -/
theorem malformed_frame_counterexample :
    runStream .openRouter loadsEx ["data: notjson", frameHi] = .error .jsonError ∧
    runStream .deepSeekDirect loadsEx ["notjson", jsonHi] = .error .jsonError ∧
    runStream .openRouter loadsEx ["data: notjson", frameHi] ≠ .ok "Hi" ∧
    runStream .deepSeekDirect loadsEx ["notjson", jsonHi] ≠ .ok "Hi" := by
  have h1 : runStream .openRouter loadsEx ["data: notjson", frameHi] = .error .jsonError := rfl
  have h2 : runStream .deepSeekDirect loadsEx ["notjson", jsonHi] = .error .jsonError := rfl
  refine ⟨h1, h2, ?_, ?_⟩
  · rw [h1]; intro hcontra; exact Except.noConfusion hcontra
  · rw [h2]; intro hcontra; exact Except.noConfusion hcontra

/-- Witness for C4, applying each part of the theorem at concrete frames. -/
theorem malformed_frame_aborts_witness :
    runStreamAux .openRouter loadsEx (Json.str "", "") ["data: notjson"]
        = .error .jsonError ∧
    runStreamAux .deepSeekDirect loadsEx (Json.str "", "") ["nope"]
        = .error .jsonError ∧
    runStreamAux .openRouter loadsEx (payloadHi, "Hi") [": ping"]
        = runStreamAux .openRouter loadsEx (payloadHi, "HiHi") [] := by
  refine ⟨?_, ?_, ?_⟩
  · exact malformed_frame_aborts.1 loadsEx (Json.str "", "") "data: notjson" []
      (by decide) (by decide) rfl
  · exact malformed_frame_aborts.2.1 loadsEx (Json.str "", "") "nope" []
      (by decide) rfl
  · exact malformed_frame_aborts.2.2 loadsEx (payloadHi, "Hi") ": ping" "HiHi" []
      (by decide) (by decide) rfl

/-- C5 (amended): for every successful streamed response in which every
non-empty frame is freshly parsed (for the SSE shape, every non-empty frame
carries the "data: " marker; parse failures and malformed payloads excluded
since those abort), the final assistant message content is the in-order
concatenation of the choices[0].delta.content fields of the parsed frames -
payloads without that path contributing nothing - and the session log gains
exactly the user message and that assistant message. -/
theorem stream_accumulation (p : ApiProvider) (loads : String → Option Json)
    (frames : List String) (ds : List String)
    (api_key file_content prompt : String) (now : ℚ) (ts : String) (st : AppState)
    (hds : framesDeltas p loads frames = some ds)
    (h1 : (check_rate_limit now st.api_calls).1 = true)
    (h2 : api_key ≠ "") :
    (submit p loads api_key file_content prompt now ts (.stream frames true) st).1
        = .success (concatAll ds) ∧
    (submit p loads api_key file_content prompt now ts (.stream frames true) st).2.messages
        = st.messages ++ [Message.mk "user" (full_prompt_of file_content prompt),
            Message.mk "assistant" (concatAll ds)] := by
  have hrun := runStream_deltas hds
  rw [submit_streamOk_saved p loads api_key file_content prompt now ts frames
    (concatAll ds) st h1 h2 hrun]
  exact ⟨rfl, rfl⟩

/-- Witness for C5: the spec scenario - submit "Hello", deltas "Hi" and
" there" - yields assistant "Hi there" and the two-message log. -/
theorem stream_accumulation_witness :
    (submit .openRouter loadsEx "k" "" "Hello" 0 "t"
        (.stream [frameHi, frameThere] true) st0).1
      = .success "Hi there" ∧
    (submit .openRouter loadsEx "k" "" "Hello" 0 "t"
        (.stream [frameHi, frameThere] true) st0).2.messages
      = [Message.mk "user" "Hello", Message.mk "assistant" "Hi there"] := by
  have h := stream_accumulation .openRouter loadsEx [frameHi, frameThere] ["Hi", " there"]
    "k" "" "Hello" 0 "t" st0 rfl (by decide) (by decide)
  constructor
  · rw [h.1]
    rfl
  · rw [h.2]
    rfl

/-- Counterexample for C5 as stated: a successful OpenRouter stream whose
middle keep-alive frame lacks the "data: " marker.  The two parsed frames
carry the deltas "Hi" and " there", yet the accumulated assistant content
is "HiHi there", not their concatenation "Hi there". -/
theorem stream_accumulation_counterexample :
    runStream .openRouter loadsEx [frameHi, ": OPENROUTER PROCESSING", frameThere]
        = .ok "HiHi there" ∧
    payloadDelta payloadHi = some "Hi" ∧
    payloadDelta payloadThere = some " there" ∧
    "HiHi there" ≠ "Hi" ++ " there" ∧
    (submit .openRouter loadsEx "k" "" "Hello" 0 "t"
        (.stream [frameHi, ": OPENROUTER PROCESSING", frameThere] true) st0).1
      = .success "HiHi there" := by
  exact ⟨rfl, rfl, rfl, by decide, rfl⟩

/-- C9: for the SSE-style provider, a non-empty frame without the "data: "
marker leaves chunk_json holding the previously parsed payload, which is
processed again: with frames carrying deltas "Hi" and " there" around such
a frame, the accumulated text is "HiHi there", not the concatenation of one
delta per parsed frame. -/
theorem stale_payload_duplication :
    runStream .openRouter loadsEx [frameHi, ": ping", frameThere] = .ok "HiHi there" ∧
    concatAll ["Hi", " there"] = "Hi there" ∧
    runStream .openRouter loadsEx [frameHi, ": ping", frameThere]
        ≠ .ok (concatAll ["Hi", " there"]) := by
  have he : runStream .openRouter loadsEx [frameHi, ": ping", frameThere]
      = .ok "HiHi there" := rfl
  refine ⟨he, rfl, ?_⟩
  rw [he]
  intro hcontra
  rw [Except.ok.injEq] at hcontra
  exact absurd hcontra (by decide)

/-- C1 (amended): for every admitted submit with a non-empty API key, any
failure from the streaming phase up to the assistant append - a non-2xx
HTTP status, a transport failure, or an error raised while decoding frames -
pops the just-appended user message, restoring the session log and leaving
the persisted store untouched; on full success the log gains exactly the
user and assistant messages.  (The exception forced by the counterexample:
a failure of the final save happens after the assistant message is already
appended, and the handler's pop then removes the assistant message instead,
leaving the user turn unanswered in the session log.) -/
theorem rollback_on_failure_paths (p : ApiProvider) (loads : String → Option Json)
    (api_key file_content prompt : String) (now : ℚ) (ts : String) (st : AppState)
    (h1 : (check_rate_limit now st.api_calls).1 = true)
    (h2 : api_key ≠ "") :
    (∀ status,
      (submit p loads api_key file_content prompt now ts (.httpError status) st).1
          = .apiError status ∧
      (submit p loads api_key file_content prompt now ts (.httpError status) st).2.messages
          = st.messages ∧
      (submit p loads api_key file_content prompt now ts (.httpError status) st).2.history_dir
          = st.history_dir) ∧
    ((submit p loads api_key file_content prompt now ts .transportError st).1
          = .genericError ∧
      (submit p loads api_key file_content prompt now ts .transportError st).2.messages
          = st.messages ∧
      (submit p loads api_key file_content prompt now ts .transportError st).2.history_dir
          = st.history_dir) ∧
    (∀ frames save_ok e, runStream p loads frames = .error e →
      (submit p loads api_key file_content prompt now ts (.stream frames save_ok) st).1
          = .genericError ∧
      (submit p loads api_key file_content prompt now ts
          (.stream frames save_ok) st).2.messages = st.messages ∧
      (submit p loads api_key file_content prompt now ts
          (.stream frames save_ok) st).2.history_dir = st.history_dir) ∧
    (∀ frames resp, runStream p loads frames = .ok resp →
      (submit p loads api_key file_content prompt now ts
          (.stream frames true) st).2.messages
        = st.messages ++ [Message.mk "user" (full_prompt_of file_content prompt),
            Message.mk "assistant" resp]) := by
  refine ⟨?_, ?_, ?_, ?_⟩
  · intro status
    rw [submit_httpError p loads api_key file_content prompt now ts status st h1 h2]
    exact ⟨rfl, rfl, rfl⟩
  · rw [submit_transportError p loads api_key file_content prompt now ts st h1 h2]
    exact ⟨rfl, rfl, rfl⟩
  · intro frames save_ok e hrun
    rw [submit_streamError p loads api_key file_content prompt now ts frames save_ok e st
      h1 h2 hrun]
    exact ⟨rfl, rfl, rfl⟩
  · intro frames resp hrun
    rw [submit_streamOk_saved p loads api_key file_content prompt now ts frames resp st
      h1 h2 hrun]

/-- Counterexample for C1 as stated: the stream completes, the assistant
message is appended, and then the save raises ("a later error before a
successful save").  The handler's pop removes the assistant message, so the
submit ends with a log holding exactly the unanswered user turn - neither
"both messages" nor "neither". -/
theorem rollback_save_failure_counterexample :
    (submit .openRouter loadsNone "k" "" "Hello" 0 "t" (.stream [] false) st0).1
        = .genericError ∧
    (submit .openRouter loadsNone "k" "" "Hello" 0 "t" (.stream [] false) st0).2.messages
        = [Message.mk "user" "Hello"] ∧
    [Message.mk "user" "Hello"] ≠ ([] : List Message) ∧
    (Message.mk "user" "Hello").role = "user" := by
  refine ⟨rfl, rfl, by decide, rfl⟩

/-- Witness for C1, at the spec's HTTP 429 scenario: the submit surfaces
apiError 429 and the reloaded state shows the user message absent. -/
theorem rollback_on_failure_paths_witness :
    (submit .openRouter loadsNone "k" "" "Hello" 0 "t" (.httpError 429) st0).1
        = .apiError 429 ∧
    (submit .openRouter loadsNone "k" "" "Hello" 0 "t" (.httpError 429) st0).2.messages
        = [] ∧
    (submit .openRouter loadsNone "k" "" "Hello" 0 "t" (.httpError 429) st0).2.history_dir
        = [] := by
  have h := rollback_on_failure_paths .openRouter loadsNone "k" "" "Hello" 0 "t" st0
    (by decide) (by decide)
  have h429 := h.1 429
  exact ⟨h429.1, h429.2.1, h429.2.2⟩
